import Mathlib

/-!
Shallow embedding of the `dialogue_engine` repository (story manager,
orchestrator, NPC agent, text generator) together with proofs about the
behaviour its specification claims.

Modelling conventions, each justified against the Python source:

* Python lists become Lean `List`s; Python dicts (which preserve insertion
  order) become association lists `List (String × _)`; dict assignment
  replaces the value of an existing key in place or appends a new binding.
* `datetime` moments are modelled by `Nat` (an absolute moment, e.g.
  microseconds since the epoch).  `datetime.isoformat` followed by
  ISO-8601 parsing is the identity on the underlying moment (the isoformat
  string of a `datetime.now()` value keeps full microsecond precision),
  so the persistence codec carries the moment through unchanged.
* Arbitrary JSON-compatible values (`world_state` values, metadata values,
  memory-record values) are modelled by the inductive `JVal`; `json.dump`
  followed by `json.load` is the identity on such values, so the codec
  carries them through unchanged.
* Python floats in `GameSettings` round-trip exactly through JSON
  (repr/parse is exact); they are modelled as `Rat`.
* The external chat-completion call is abstracted by its outcome, a value
  of type `Except String (Option String)`: `.error e` models the client
  raising an exception with text `e`, `.ok none` models a reply whose
  `message.content` is `None`, and `.ok (some s)` a reply with content `s`.
-/

/-- A JSON-compatible value, as stored in `world_state`, metadata
dictionaries and memory records.  (Arrays/objects nest the same way and
are omitted only for brevity; nothing in the claims inspects nesting.) -/
inductive JVal where
  | jnull : JVal
  | jbool : Bool → JVal
  | jint : Int → JVal
  | jstr : String → JVal
deriving DecidableEq, Repr

/-- `LLM_Model` enumeration from `src/agents/llms.py`. -/
inductive LLM_Model where
  | GPT_41_MINI
  | GPT_OSS_OLLAMA
  | GPT_OSS_OPEN
  | DEEPSEEK_V3
  | DEEPSEEK_V3_OLLAMA
deriving DecidableEq, Repr

namespace LLM_Model

/-- The `.value` of each `LLM_Model` member. -/
def value : LLM_Model → String
  | .GPT_41_MINI => "gpt-4.1-mini"
  | .GPT_OSS_OLLAMA => "gpt-oss:20b-cloud"
  | .GPT_OSS_OPEN => "openai/gpt-oss-20b"
  | .DEEPSEEK_V3 => "deepseek/deepseek-chat-v3-0324"
  | .DEEPSEEK_V3_OLLAMA => "deepseek-v3.1:671b-cloud"

end LLM_Model

/-- `ActionType` enumeration from `src/models.py` (a `str`-valued enum). -/
inductive ActionType where
  | DIALOGUE
  | MOVEMENT
  | EMOTION
  | INTERACTION
  | STORY_EVENT
deriving DecidableEq, Repr

namespace ActionType

/-- The `.value` of each `ActionType` member. -/
def value : ActionType → String
  | .DIALOGUE => "dialogue"
  | .MOVEMENT => "movement"
  | .EMOTION => "emotion"
  | .INTERACTION => "interaction"
  | .STORY_EVENT => "story_event"

/-- The `.name` of each `ActionType` member. -/
def nameOf : ActionType → String
  | .DIALOGUE => "DIALOGUE"
  | .MOVEMENT => "MOVEMENT"
  | .EMOTION => "EMOTION"
  | .INTERACTION => "INTERACTION"
  | .STORY_EVENT => "STORY_EVENT"

/-- All members. -/
def members : List ActionType :=
  [.DIALOGUE, .MOVEMENT, .EMOTION, .INTERACTION, .STORY_EVENT]

/-- `ActionType[s]`: lookup by member *name*; `none` models the `KeyError`. -/
def ofName (s : String) : Option ActionType :=
  members.find? (fun a => nameOf a == s)

/-- Validation of a string against `ActionType` by *value* (what the
object-validation layer does when a raw string is supplied for an
`ActionType`-typed field); `none` models the validation error. -/
def ofValue (s : String) : Option ActionType :=
  members.find? (fun a => value a == s)

end ActionType

/-- `StoryState` from `src/models.py`.  `timestamp` is the moment (see the
module conventions above). -/
structure StoryState where
  plot_points : List String := []
  completed_events : List String := []
  active_goals : List String := []
  world_state : List (String × JVal) := []
  timestamp : Nat := 0
deriving DecidableEq, Repr

/-- A fresh `StoryState()` (all collection fields empty; the construction
moment is irrelevant to every claim and fixed at 0). -/
def initialStoryState : StoryState := {}

/-- `NPCMemory` from `src/models.py`.  Each memory entry is a free-form
JSON record. -/
structure NPCMemory where
  npc_name : String
  memories : List (List (String × JVal)) := []
  important_events : List String := []
  player_interactions : Nat := 0
deriving DecidableEq, Repr

/-- One entry of `StoryManager.conversation_history` (the dict built by
`record_conversation`; its timestamp is stored as the isoformat string). -/
structure Exchange where
  timestamp : String
  player_input : String
  npc_name : String
  npc_response : String
  metadata : List (String × JVal)
deriving DecidableEq, Repr

/-- The `llm_model` slot of `GameSettings`: the field is annotated
`str | None` but `save_state` explicitly handles an `Enum` inhabitant and
`load_state` stores the reverse-mapped member back into it, so the slot
holds either a raw token string or an `LLM_Model` member. -/
inductive LLMSetting where
  | raw : String → LLMSetting
  | member : LLM_Model → LLMSetting
deriving DecidableEq, Repr

/-- `GameSettings` from `src/models.py`. -/
structure GameSettings where
  llm_model : Option LLMSetting := none
  temperature : Rat := (4 : Rat) / 5
  max_tokens : Int := 500
  story_style : String := "adventure"
  difficulty : String := "medium"
  custom_instructions : Option String := none
deriving DecidableEq, Repr

/-- The complete persistent state of a `StoryManager` (the "Store"):
story state, NPC memories, conversation log and settings. -/
structure Store where
  settings : GameSettings := {}
  story_state : StoryState := {}
  npc_memories : List (String × NPCMemory) := []
  conversation_history : List Exchange := []
deriving DecidableEq, Repr

/-- The `settings` object of the save file: `llm_model` is its string
token (or null); all other fields are structural. -/
structure SettingsFile where
  llm_model : Option String
  temperature : Rat
  max_tokens : Int
  story_style : String
  difficulty : String
  custom_instructions : Option String
deriving DecidableEq, Repr

/-- The JSON save file written by `StoryManager.save_state` (as the
structured value it parses back to; `json.dump`/`json.load` is a bijection
on this data). -/
structure SaveData where
  story_state : StoryState
  npc_memories : List (String × NPCMemory)
  conversation_history : List Exchange
  settings : SettingsFile
deriving DecidableEq, Repr

/-- Serialisation of the settings in `save_state`: an `Enum` inhabitant of
`llm_model` is replaced by its `.value`; a raw string or `None` is kept. -/
def saveSettings (g : GameSettings) : SettingsFile where
  llm_model := g.llm_model.map fun s =>
    match s with
    | .raw t => t
    | .member m => m.value
  temperature := g.temperature
  max_tokens := g.max_tokens
  story_style := g.story_style
  difficulty := g.difficulty
  custom_instructions := g.custom_instructions

/-- `StoryManager.save_state` (the structured content of the file it
writes). -/
def saveState (s : Store) : SaveData where
  story_state := s.story_state
  npc_memories := s.npc_memories
  conversation_history := s.conversation_history
  settings := saveSettings s.settings

/-- The exception text of `from ..agents.llms import LLM_Model` inside
`load_state`: a two-level relative import out of the `story` package,
which is a top-level package under the repository's import layout
(`game_orchestrator.py` does `from story.story_manager import ...`, as
the example scripts run it). -/
def importErrorText : String :=
  "ImportError: attempted relative import beyond top-level package"

/-- Settings decoding in `load_state`.  When the persisted `llm_model`
is a string token — of any value, known or unknown — the branch first
executes `from ..agents.llms import LLM_Model`, which raises under the
repository's import layout, so neither the reverse-mapping loop nor the
`GameSettings(**settings_data)` construction is reached.  (Even where
that import resolves, reverse-mapping a known token to the plain-`Enum`
member and passing it to the `str | None` field would make the
`GameSettings` construction raise a validation error.)  When `llm_model`
is null, the `isinstance(..., str)` guard skips the branch and
`GameSettings(**settings_data)` validates and succeeds. -/
def loadSettings (f : SettingsFile) : Except String GameSettings :=
  match f.llm_model with
  | some _ => .error importErrorText
  | none =>
    .ok { llm_model := none, temperature := f.temperature,
          max_tokens := f.max_tokens, story_style := f.story_style,
          difficulty := f.difficulty, custom_instructions := f.custom_instructions }

/-- `StoryManager.load_state` on an existing file.  Story state, NPC
memories and the conversation log are replaced first; the settings block
runs last, so when it raises, the exception propagates with the first
three replacements already applied and the previous settings left in
place.  The result pairs the manager's state after the call with the
text of the raised exception, if any. -/
def loadState (prior : Store) (d : SaveData) : Store × Option String :=
  let st1 : Store :=
    { prior with
      story_state := d.story_state
      npc_memories := d.npc_memories
      conversation_history := d.conversation_history }
  match loadSettings d.settings with
  | .ok g => ({ st1 with settings := g }, none)
  | .error e => (st1, some e)

/-- `StoryManager.complete_event`: append-if-absent into
`completed_events`. -/
def completeEvent (st : StoryState) (event_name : String) : StoryState :=
  if event_name ∈ st.completed_events then st
  else { st with completed_events := st.completed_events ++ [event_name] }

/-- `StoryManager.set_active_goals`: installs the given list verbatim. -/
def setActiveGoals (st : StoryState) (goals : List String) : StoryState :=
  { st with active_goals := goals }

/-- `StoryManager.add_active_goal`: append-if-absent. -/
def addActiveGoal (st : StoryState) (goal : String) : StoryState :=
  if goal ∈ st.active_goals then st
  else { st with active_goals := st.active_goals ++ [goal] }

/-- `StoryManager.complete_goal`: `list.remove` of the first occurrence
when present (`List.erase` has exactly this semantics), silently a no-op
when absent. -/
def completeGoal (st : StoryState) (goal : String) : StoryState :=
  if goal ∈ st.active_goals then
    { st with active_goals := st.active_goals.erase goal }
  else st

/-- The operations of the Store that touch `active_goals`. -/
inductive GoalOp where
  | set : List String → GoalOp
  | add : String → GoalOp
  | complete : String → GoalOp
deriving DecidableEq, Repr

/-- Apply one goal operation. -/
def applyGoalOp (st : StoryState) : GoalOp → StoryState
  | .set gs => setActiveGoals st gs
  | .add g => addActiveGoal st g
  | .complete g => completeGoal st g

/-- A `set_active_goals` input is duplicate-free (vacuous for the other
operations). -/
def goalOpInputOk : GoalOp → Prop
  | .set gs => gs.Nodup
  | .add _ => True
  | .complete _ => True

instance : DecidablePred goalOpInputOk := fun op => by
  cases op <;> simp [goalOpInputOk] <;> infer_instance

/-- `StoryManager.record_conversation`: append the exchange built from the
call's arguments (plus the moment's isoformat string), then truncate to
the most recent 100 entries when the log exceeds 100. -/
def recordConversation (hist : List Exchange) (ts player npcn resp : String)
    (md : List (String × JVal)) : List Exchange :=
  let h2 := hist ++ [⟨ts, player, npcn, resp, md⟩]
  if 100 < h2.length then h2.drop (h2.length - 100) else h2

/-- A whole sequence of `record_conversation` calls starting from the
empty log, with each call's arguments packaged as an `Exchange`. -/
def foldRecord (es : List Exchange) : List Exchange :=
  es.foldl
    (fun h e => recordConversation h e.timestamp e.player_input e.npc_name e.npc_response e.metadata)
    []

/-- `NPCPersonality` from `src/models.py`. -/
structure NPCPersonality where
  name : String
  backstory : String := ""
  personality_traits : List String := []
  goals : List String := []
  relationships : List (String × String) := []
  speech_patterns : Option String := none
  emotional_state : String := "neutral"
deriving DecidableEq, Repr

/-- `ActionResponse` from `src/models.py` (timestamp defaulted at
construction; irrelevant to every claim and omitted). -/
structure ActionResponse where
  action_type : ActionType
  content : String
  npc_name : String
  metadata : Option (List (String × JVal)) := none
deriving DecidableEq, Repr

/-- `DialogueExchange` from `src/models.py` (timestamp omitted as above). -/
structure DialogueExchange where
  player_input : Option String := none
  npc_response : String
  npc_name : String
  emotional_state : Option String := none
deriving DecidableEq, Repr

/-- An `NPCAgent`: personality, private memory and chosen model. -/
structure NPCAgentState where
  personality : NPCPersonality
  model : LLM_Model
  memory : NPCMemory
deriving DecidableEq, Repr

/-- `Text_Generator.generate_text` (non-streaming), with the underlying
chat-completion call abstracted by its outcome: an exception from the
client is caught internally and the call returns the empty string; a
successful reply returns its content (possibly `None`).  The function is
total, so no failure ever escapes to the caller. -/
def generateText (callResult : Except String (Option String)) : Option String :=
  match callResult with
  | .error _ => some ""
  | .ok content => content

/-- `str.startswith` for a single character (over the character list). -/
def startsWithChar (s : String) (c : Char) : Bool :=
  match s.data with
  | [] => false
  | a :: _ => a == c

/-- `str.endswith` for a single character (over the character list). -/
def endsWithChar (s : String) (c : Char) : Bool :=
  match s.data.getLast? with
  | none => false
  | some a => a == c

/-- `s[1:-1]`: everything but the first and last character. -/
def dropEnds (s : String) : String :=
  ⟨(s.data.drop 1).take ((s.data.drop 1).length - 1)⟩

/-- The quote-stripping step of `generate_dialogue`: drop a matching pair
of surrounding double or single quotes. -/
def stripQuotes (s : String) : String :=
  if (startsWithChar s '"' && endsWithChar s '"')
      || (startsWithChar s '\'' && endsWithChar s '\'') then
    dropEnds s
  else s

/-- `NPCAgent.generate_dialogue`.  (Prompt assembly has no observable
effect on any state or result field and is abstracted into the oracle.)
The LLM reply is defaulted to `"..."` when it is `None` or empty, quotes
are stripped, a dialogue record is appended to the agent's memory and the
interaction counter incremented; the Python dict literal stores the model
member itself under `"model"`, rendered here by its token. -/
def generateDialogue (npc : NPCAgentState) (player_input : String)
    (story : StoryState) (oracle : Except String (Option String)) :
    ActionResponse × NPCAgentState :=
  let response := generateText oracle
  let d0 := match response with
    | none => "..."
    | some s => if s = "" then "..." else s
  let dialogue_text := stripQuotes d0
  let mem1 : NPCMemory :=
    { npc.memory with
      memories := npc.memory.memories ++
        [[("type", JVal.jstr "dialogue"),
          ("player_input", JVal.jstr player_input),
          ("npc_response", JVal.jstr dialogue_text),
          ("timestamp", JVal.jstr (toString story.timestamp))]]
      player_interactions := npc.memory.player_interactions + 1 }
  (⟨ActionType.DIALOGUE, dialogue_text, npc.personality.name,
    some [("emotional_state", JVal.jstr npc.personality.emotional_state),
          ("model", JVal.jstr npc.model.value)]⟩,
   { npc with memory := mem1 })

/-- The `except` handler of `generate_dialogue` (what it would return if
an exception reached it): the in-character fallback line with the error
text attached under `"error"`.  Because `generateText` is total and never
raises, this handler is unreachable for generation failures. -/
def dialogueFailureHandler (npc : NPCAgentState) (e : String) : ActionResponse :=
  ⟨ActionType.DIALOGUE, "...I need a moment to collect my thoughts.",
   npc.personality.name, some [("error", JVal.jstr e)]⟩

/-- `NPCAgent.generate_action`.  On a `None` reply, `response.strip()`
raises `AttributeError`, which the handler converts into the
"stands quietly" fallback with error metadata (and no memory append);
otherwise the trimmed text is returned and a memory record appended. -/
def generateAction (npc : NPCAgentState) (context : String)
    (story : StoryState) (action_type : ActionType)
    (oracle : Except String (Option String)) :
    ActionResponse × NPCAgentState :=
  match generateText oracle with
  | some s =>
    let action_text := s.trim
    let mem1 : NPCMemory :=
      { npc.memory with
        memories := npc.memory.memories ++
          [[("type", JVal.jstr action_type.value),
            ("context", JVal.jstr context),
            ("action", JVal.jstr action_text),
            ("timestamp", JVal.jstr (toString story.timestamp))]] }
    (⟨action_type, action_text, npc.personality.name,
      some [("model", JVal.jstr npc.model.value)]⟩,
     { npc with memory := mem1 })
  | none =>
    (⟨action_type, npc.personality.name ++ " stands quietly.", npc.personality.name,
      some [("error", JVal.jstr "AttributeError")]⟩,
     npc)

/-- `str.upper` (ASCII, which covers every enumeration name involved),
over the character list. -/
def pyUpper (s : String) : String :=
  ⟨s.data.map Char.toUpper⟩

/-- Python dict assignment `d[k] = v` on an association list: replace the
binding of an existing key in place, else append. -/
def setKey {α : Type} (l : List (String × α)) (k : String) (v : α) :
    List (String × α) :=
  if l.any (fun p => p.1 == k) then
    l.map (fun p => if p.1 == k then (k, v) else p)
  else l ++ [(k, v)]

/-- State of a `GameOrchestrator`: the Store plus the NPC roster. -/
structure OrchState where
  settings : GameSettings := {}
  story_state : StoryState := {}
  npc_memories : List (String × NPCMemory) := []
  conversation_history : List Exchange := []
  npcs : List (String × NPCAgentState) := []
deriving DecidableEq, Repr

/-- `GameOrchestrator.process_player_input`.  `now` is the moment of the
interaction; `oracle` the outcome of the underlying chat-completion call.
On an unknown character name it returns the sentinel exchange attributed
to "System" and leaves the state untouched; otherwise it refreshes the
story timestamp, generates the dialogue, records the conversation and
re-registers the agent's memory with the Store. -/
def processPlayerInput (st : OrchState) (now : Nat)
    (oracle : Except String (Option String))
    (player_input npc_name : String) : DialogueExchange × OrchState :=
  match st.npcs.lookup npc_name with
  | none =>
    (⟨some player_input, "I don't know who " ++ npc_name ++ " is...", "System", none⟩, st)
  | some npc =>
    let story1 := { st.story_state with timestamp := now }
    let p := generateDialogue npc player_input story1 oracle
    let hist1 := recordConversation st.conversation_history (toString now)
      player_input npc_name p.1.content (p.1.metadata.getD [])
    let ex : DialogueExchange :=
      ⟨some player_input, p.1.content, npc_name, some p.2.personality.emotional_state⟩
    (ex,
     { st with
       story_state := story1
       conversation_history := hist1
       npc_memories := setKey st.npc_memories npc_name p.2.memory
       npcs := setKey st.npcs npc_name p.2 })

/-- `GameOrchestrator.trigger_npc_action`.  On a roster miss the sentinel
`ActionResponse` is built with the *raw* `action_type` string, which the
object-validation layer coerces to an `ActionType` member by value — or
rejects, raising a validation error (`Except.error`).  On a hit the
action-kind string is upper-cased and looked up by member name, falling
back to `INTERACTION` on a `KeyError`; the agent's memory object is
shared with the Store's registry, so its mutation is visible there. -/
def triggerNpcAction (st : OrchState) (now : Nat)
    (oracle : Except String (Option String))
    (npc_name context : String) (action_type : String := "interaction") :
    Except String (ActionResponse × OrchState) :=
  match st.npcs.lookup npc_name with
  | none =>
    match ActionType.ofValue action_type with
    | some a =>
      .ok (⟨a, npc_name ++ " is not present.", "System", none⟩, st)
    | none =>
      .error ("ValidationError: " ++ action_type ++ " is not a valid ActionType")
  | some npc =>
    let story1 := { st.story_state with timestamp := now }
    let a := (ActionType.ofName (pyUpper action_type)).getD ActionType.INTERACTION
    let p := generateAction npc context story1 a oracle
    .ok (p.1,
      { st with
        story_state := story1
        npc_memories := setKey st.npc_memories npc_name p.2.memory
        npcs := setKey st.npcs npc_name p.2 })

/-- One `record_conversation` call, with the constructed exchange
packaged back up (structure eta). -/
theorem recordConversation_as_cap (h : List Exchange) (e : Exchange) :
    recordConversation h e.timestamp e.player_input e.npc_name e.npc_response e.metadata
      = (if 100 < (h ++ [e]).length then (h ++ [e]).drop ((h ++ [e]).length - 100)
         else h ++ [e]) := rfl

/-- A run of `record_conversation` from the empty log keeps exactly the
final 100-record suffix of the full call sequence. -/
theorem foldRecord_eq_drop (es : List Exchange) :
    foldRecord es = es.drop (es.length - 100) := by
  induction es using List.reverseRecOn with
  | nil => rfl
  | append_singleton l e ih =>
    have hstep : foldRecord (l ++ [e])
        = recordConversation (foldRecord l) e.timestamp e.player_input
            e.npc_name e.npc_response e.metadata := by
      simp only [foldRecord, List.foldl_append, List.foldl_cons, List.foldl_nil]
    rw [hstep, ih, recordConversation_as_cap]
    rcases Nat.lt_or_ge l.length 100 with hlt | hge
    · have h1 : l.length - 100 = 0 := by omega
      rw [h1, List.drop_zero]
      have h2 : ¬ 100 < (l ++ [e]).length := by
        simp
        omega
      have h3 : (l ++ [e]).length - 100 = 0 := by
        simp
        omega
      rw [if_neg h2, h3, List.drop_zero]
    · have hdlen : (l.drop (l.length - 100)).length = 100 := by
        simp [List.length_drop]
        omega
      have h2 : 100 < (l.drop (l.length - 100) ++ [e]).length := by
        simp [hdlen]
      have h3 : (l.drop (l.length - 100) ++ [e]).length - 100 = 1 := by
        simp only [List.length_append, hdlen, List.length_cons, List.length_nil]
      rw [if_pos h2, h3]
      calc (l.drop (l.length - 100) ++ [e]).drop 1
          = (l.drop (l.length - 100)).drop 1 ++ [e] :=
            List.drop_append_of_le_length (by rw [hdlen]; omega)
        _ = l.drop (l.length - 100 + 1) ++ [e] := by rw [List.drop_drop]
        _ = l.drop ((l ++ [e]).length - 100) ++ [e] := by
            have h4 : l.length - 100 + 1 = (l ++ [e]).length - 100 := by
              simp
              omega
            rw [h4]
        _ = (l ++ [e]).drop ((l ++ [e]).length - 100) :=
            (List.drop_append_of_le_length (by simp)).symm

/-- C2: the conversation log never exceeds 100 records, and after any
sequence of `record_conversation` calls it holds exactly the most recent
100 calls' records, oldest first, newest last; in particular more than
100 calls leave exactly 100 records. -/
theorem conversation_log_bounded_fifo (es : List Exchange) :
    foldRecord es = es.drop (es.length - 100) ∧
    (foldRecord es).length ≤ 100 ∧
    (100 < es.length → (foldRecord es).length = 100) := by
  refine ⟨foldRecord_eq_drop es, ?_, ?_⟩ <;>
    simp [foldRecord_eq_drop, List.length_drop] <;> omega

/-- A blank exchange, used to instantiate the bounded-log theorem. -/
def blankExchange : Exchange := ⟨"", "", "", "", []⟩

/-- Witness for C2: 150 recorded conversations leave exactly 100. -/
theorem conversation_log_bounded_fifo_witness :
    100 < (List.replicate 150 blankExchange).length ∧
    (foldRecord (List.replicate 150 blankExchange)).length = 100 :=
  ⟨by simp,
   (conversation_log_bounded_fifo (List.replicate 150 blankExchange)).2.2 (by simp)⟩

/-- One goal operation with a duplicate-free `set` input keeps
`active_goals` duplicate-free. -/
theorem goalOp_preserves_nodup (st : StoryState) (op : GoalOp)
    (hst : st.active_goals.Nodup) (hop : goalOpInputOk op) :
    ((applyGoalOp st op).active_goals).Nodup := by
  cases op with
  | set gs => simpa [applyGoalOp, setActiveGoals] using hop
  | add g =>
    by_cases hmem : g ∈ st.active_goals
    · simpa [applyGoalOp, addActiveGoal, hmem] using hst
    · have hc := List.Nodup.concat hmem hst
      simpa [applyGoalOp, addActiveGoal, hmem, List.concat_eq_append] using hc
  | complete g =>
    by_cases hmem : g ∈ st.active_goals
    · simpa [applyGoalOp, completeGoal, hmem] using List.Nodup.erase g hst
    · simpa [applyGoalOp, completeGoal, hmem] using hst

/-- Folding goal operations preserves duplicate-freedom of
`active_goals`, provided every `set` input is duplicate-free. -/
theorem foldGoalOps_nodup (ops : List GoalOp) :
    ∀ st : StoryState, (∀ op ∈ ops, goalOpInputOk op) → st.active_goals.Nodup →
    ((ops.foldl applyGoalOp st).active_goals).Nodup := by
  induction ops with
  | nil => intro st _ hst; simpa using hst
  | cons op rest ih =>
    intro st hops hst
    simp only [List.foldl_cons]
    exact ih (applyGoalOp st op)
      (fun o ho => hops o (List.mem_cons_of_mem _ ho))
      (goalOp_preserves_nodup st op hst (hops op (List.mem_cons_self _ _)))

/-- C6 counterexample: `set_active_goals` installs its input verbatim, so
a duplicated input puts duplicates into `active_goals`. -/
theorem set_active_goals_duplicates :
    (setActiveGoals initialStoryState ["quest", "quest"]).active_goals
      = ["quest", "quest"] ∧
    ¬ ((setActiveGoals initialStoryState ["quest", "quest"]).active_goals).Nodup := by
  exact ⟨rfl, by decide⟩

/-- C6 (amended): after any sequence of goal operations starting from the
initial state, `active_goals` is duplicate-free provided each
`set_active_goals` input is itself duplicate-free (`add_active_goal`
appends only if absent, `complete_goal` only removes); `set_active_goals`
itself installs its input verbatim, without deduplication. -/
theorem active_goals_nodup (ops : List GoalOp)
    (h : ∀ op ∈ ops, goalOpInputOk op) :
    ((ops.foldl applyGoalOp initialStoryState).active_goals).Nodup :=
  foldGoalOps_nodup ops initialStoryState h (by simp [initialStoryState])

/-- Witness for C6 (amended) at a concrete operation sequence. -/
theorem active_goals_nodup_witness :
    (∀ op ∈ [GoalOp.set ["a", "b"], GoalOp.add "a", GoalOp.add "c",
             GoalOp.complete "b"], goalOpInputOk op) ∧
    ((([GoalOp.set ["a", "b"], GoalOp.add "a", GoalOp.add "c",
        GoalOp.complete "b"]).foldl applyGoalOp initialStoryState).active_goals).Nodup :=
  ⟨by decide, active_goals_nodup _ (by decide)⟩

/-- C7: any sequence of `complete_event` calls leaves `completed_events`
duplicate-free; a call with a name already present is a no-op on the
whole state, and an absent name is appended at the end. -/
theorem completed_events_nodup :
    (∀ names : List String,
      ((names.foldl completeEvent initialStoryState).completed_events).Nodup) ∧
    (∀ st e, e ∈ st.completed_events → completeEvent st e = st) ∧
    (∀ st e, e ∉ st.completed_events →
      (completeEvent st e).completed_events = st.completed_events ++ [e]) := by
  refine ⟨?_, ?_, ?_⟩
  · intro names
    suffices hgen : ∀ st : StoryState, st.completed_events.Nodup →
        ((names.foldl completeEvent st).completed_events).Nodup from
      hgen initialStoryState (by simp [initialStoryState])
    induction names with
    | nil => intro st hst; simpa using hst
    | cons n rest ih =>
      intro st hst
      simp only [List.foldl_cons]
      apply ih
      by_cases hmem : n ∈ st.completed_events
      · simpa [completeEvent, hmem] using hst
      · have hc := List.Nodup.concat hmem hst
        simpa [completeEvent, hmem, List.concat_eq_append] using hc
  · intro st e he
    simp [completeEvent, he]
  · intro st e he
    simp [completeEvent, he]

/-- Witness for C7 at concrete inputs. -/
theorem completed_events_nodup_witness :
    ((((["arrival", "arrival", "duel"]).foldl completeEvent
        initialStoryState).completed_events)).Nodup ∧
    completeEvent (completeEvent initialStoryState "arrival") "arrival"
      = completeEvent initialStoryState "arrival" ∧
    (completeEvent initialStoryState "arrival").completed_events = [] ++ ["arrival"] :=
  ⟨completed_events_nodup.1 ["arrival", "arrival", "duel"],
   completed_events_nodup.2.1 (completeEvent initialStoryState "arrival") "arrival"
     (by decide),
   completed_events_nodup.2.2 initialStoryState "arrival" (by decide)⟩

/-- A reachable state with a duplicated goal
(`set_active_goals(["treasure", "treasure"])`). -/
def dupGoalState : StoryState := setActiveGoals initialStoryState ["treasure", "treasure"]

/-- C8 counterexample: with a duplicated goal (reachable through
`set_active_goals`), `complete_goal` removes only the first occurrence,
so the second identical call is not a no-op. -/
theorem complete_goal_not_idempotent :
    (completeGoal dupGoalState "treasure").active_goals = ["treasure"] ∧
    (completeGoal (completeGoal dupGoalState "treasure") "treasure").active_goals = [] ∧
    completeGoal (completeGoal dupGoalState "treasure") "treasure"
      ≠ completeGoal dupGoalState "treasure" := by
  decide

/-- C8 (amended): `complete_goal` removes the first occurrence of the
goal when present and is a silent no-op (no error, state unchanged) when
absent; the double call is idempotent whenever the goal occurs at most
once in `active_goals` — in particular whenever `active_goals` is
duplicate-free. -/
theorem complete_goal_remove_if_present (st : StoryState) (g : String) :
    (g ∉ st.active_goals → completeGoal st g = st) ∧
    (g ∈ st.active_goals →
      (completeGoal st g).active_goals = st.active_goals.erase g) ∧
    (st.active_goals.count g ≤ 1 →
      completeGoal (completeGoal st g) g = completeGoal st g) := by
  refine ⟨?_, ?_, ?_⟩
  · intro h
    simp [completeGoal, h]
  · intro h
    simp [completeGoal, h]
  · intro hcount
    by_cases hmem : g ∈ st.active_goals
    · have h1 : (completeGoal st g).active_goals = st.active_goals.erase g := by
        simp [completeGoal, hmem]
      have h2 : g ∉ (completeGoal st g).active_goals := by
        rw [h1]
        intro hmem2
        have hpos := List.count_pos_iff.mpr hmem2
        rw [List.count_erase_self] at hpos
        omega
      generalize completeGoal st g = st2 at h2 ⊢
      simp [completeGoal, h2]
    · have h1 : completeGoal st g = st := by simp [completeGoal, hmem]
      rw [h1]
      exact h1

/-- Witness for C8 (amended) at concrete inputs. -/
theorem complete_goal_remove_if_present_witness :
    completeGoal initialStoryState "ghost" = initialStoryState ∧
    (completeGoal (setActiveGoals initialStoryState ["a", "b"]) "a").active_goals
      = ["a", "b"].erase "a" ∧
    completeGoal (completeGoal (setActiveGoals initialStoryState ["a", "b"]) "a") "a"
      = completeGoal (setActiveGoals initialStoryState ["a", "b"]) "a" :=
  ⟨(complete_goal_remove_if_present initialStoryState "ghost").1 (by decide),
   (complete_goal_remove_if_present (setActiveGoals initialStoryState ["a", "b"]) "a").2.1
     (by decide),
   (complete_goal_remove_if_present (setActiveGoals initialStoryState ["a", "b"]) "a").2.2
     (by decide)⟩

/-- A Store whose `llm_model` setting is the raw token of a known model
(exactly what `GameSettings(llm_model="gpt-4.1-mini")` produces; the
repository's tests construct settings with a string token the same
way). -/
def storeWithKnownToken : Store :=
  { settings := { llm_model := some (.raw "gpt-4.1-mini") } }

/-- C1 counterexample: loading into a fresh manager what was saved from
`storeWithKnownToken` does not yield a Store observationally equal to
it — `load_state` raises on the string `llm_model` token, leaving the
settings unreplaced. -/
theorem save_load_roundtrip_not_identity :
    (loadState {} (saveState storeWithKnownToken)).2 = some importErrorText ∧
    (loadState {} (saveState storeWithKnownToken)).1 ≠ storeWithKnownToken := by
  refine ⟨rfl, ?_⟩
  intro h
  have h2 := congrArg (fun st => st.settings.llm_model) h
  have h3 : (none : Option LLMSetting) = some (.raw "gpt-4.1-mini") := h2
  exact Option.noConfusion h3

/-- C1 (amended): a save/load round trip reproduces the Store exactly,
field by field, when the `llm_model` setting is null; when it is a
string token or an enum member (both persisted as a string), `load_state`
raises while decoding the settings, after story state, NPC memories and
the conversation log have already been replaced and with the loading
manager's previous settings left in place. -/
theorem save_load_roundtrip (prior s : Store) :
    (s.settings.llm_model = none → loadState prior (saveState s) = (s, none)) ∧
    (∀ v, s.settings.llm_model = some v →
      loadState prior (saveState s)
        = ({ prior with
             story_state := s.story_state
             npc_memories := s.npc_memories
             conversation_history := s.conversation_history },
           some importErrorText)) := by
  constructor
  · intro h
    cases s with
    | mk settings story npcm hist =>
      cases settings with
      | mk lm temp mt ss diff ci =>
        have hl : lm = none := h
        subst hl
        rfl
  · intro v h
    cases s with
    | mk settings story npcm hist =>
      cases settings with
      | mk lm temp mt ss diff ci =>
        have hl : lm = some v := h
        subst hl
        rfl

/-- Witness for C1 (amended): a null-model Store round trips exactly; a
known-token Store makes the load raise with only the first three
sections replaced. -/
theorem save_load_roundtrip_witness :
    loadState {} (saveState {}) = (({} : Store), none) ∧
    loadState {} (saveState storeWithKnownToken)
      = ({ ({} : Store) with
           story_state := storeWithKnownToken.story_state
           npc_memories := storeWithKnownToken.npc_memories
           conversation_history := storeWithKnownToken.conversation_history },
         some importErrorText) :=
  ⟨(save_load_roundtrip {} {}).1 rfl,
   (save_load_roundtrip {} storeWithKnownToken).2 (.raw "gpt-4.1-mini") rfl⟩

/-- A settings file carrying a known model token. -/
def fileKnownToken : SettingsFile :=
  { llm_model := some "gpt-4.1-mini", temperature := 0, max_tokens := 0,
    story_style := "", difficulty := "", custom_instructions := none }

/-- A settings file carrying an unknown model token. -/
def fileUnknownToken : SettingsFile :=
  { fileKnownToken with llm_model := some "mystery-model" }

/-- C9 (the code evaluated at the failing inputs): decoding a persisted
string `llm_model` token raises — for a known token just as for an
unknown one — instead of reverse-mapping it to the value-equal member or
keeping the raw string; only a null `llm_model` decodes without error. -/
theorem llm_token_decode_raises :
    loadSettings fileKnownToken = .error importErrorText ∧
    loadSettings fileUnknownToken = .error importErrorText ∧
    loadSettings { fileKnownToken with llm_model := none }
      = .ok { llm_model := none, temperature := 0, max_tokens := 0,
              story_style := "", difficulty := "", custom_instructions := none } :=
  ⟨rfl, rfl, rfl⟩

/-- The `action_type` of a generated action is the one requested, on both
the success and the fallback path. -/
theorem generateAction_action_type (npc : NPCAgentState) (ctx : String)
    (story : StoryState) (a : ActionType)
    (oracle : Except String (Option String)) :
    (generateAction npc ctx story a oracle).1.action_type = a := by
  cases h : generateText oracle <;> simp [generateAction, h]

/-- C10: the non-streaming text generator never lets a failure escape:
an exception from the underlying chat-completion call is caught and the
call returns the empty string; a successful reply's content (even `None`)
is passed through.  `generateText` is a total function, so no exception
reaches its callers. -/
theorem generate_text_never_raises :
    (∀ e : String, generateText (Except.error e) = some "") ∧
    (∀ c : Option String, generateText (Except.ok c) = c) :=
  ⟨fun _ => rfl, fun _ => rfl⟩

/-- C3: player input addressed to an unregistered character name yields
the sentinel exchange attributed to "System" and leaves the whole
orchestrator state (conversation log, memories, story state) unchanged. -/
theorem unknown_character_no_mutation (st : OrchState) (now : Nat)
    (oracle : Except String (Option String)) (pin name : String)
    (h : st.npcs.lookup name = none) :
    processPlayerInput st now oracle pin name
      = (⟨some pin, "I don't know who " ++ name ++ " is...", "System", none⟩, st) ∧
    (processPlayerInput st now oracle pin name).1.npc_name = "System" ∧
    (processPlayerInput st now oracle pin name).2 = st ∧
    ((processPlayerInput st now oracle pin name).2.conversation_history).length
      = st.conversation_history.length := by
  simp [processPlayerInput, h]

/-- Witness for C3: an empty roster, a concrete input. -/
theorem unknown_character_no_mutation_witness :
    ({} : OrchState).npcs.lookup "Ghost" = none ∧
    processPlayerInput {} 0 (Except.ok (some "Hail.")) "hello" "Ghost"
      = (⟨some "hello", "I don't know who " ++ "Ghost" ++ " is...", "System", none⟩,
         ({} : OrchState)) :=
  ⟨rfl,
   (unknown_character_no_mutation {} 0 (Except.ok (some "Hail.")) "hello" "Ghost" rfl).1⟩

/-- C4 counterexample: an unregistered character name together with an
action-kind string that is not a valid `ActionType` value makes
`trigger_npc_action` raise (the sentinel `ActionResponse` is built with
the raw string, which fails validation) instead of returning a
response. -/
theorem trigger_unknown_kind_raises :
    triggerNpcAction {} 0 (Except.ok (some "acts")) "Ghost" "ctx" "somersault"
      = Except.error ("ValidationError: " ++ "somersault" ++ " is not a valid ActionType") :=
  rfl

/-- C4 (amended): for a registered character, an action-kind string that
matches no member under the case-insensitive name lookup falls back to
the default `INTERACTION` kind with no error; for an unregistered
character the sentinel "System" response is returned with no state
mutation provided the kind string is a valid `ActionType` value (as the
default `"interaction"` is), and otherwise the sentinel's construction
fails validation and the call raises. -/
theorem trigger_action_kind_fallback (st : OrchState) (now : Nat)
    (oracle : Except String (Option String)) (name ctx kind : String) :
    (∀ npc, st.npcs.lookup name = some npc →
      ActionType.ofName (pyUpper kind) = none →
      ∃ p, triggerNpcAction st now oracle name ctx kind = Except.ok p ∧
        p.1.action_type = ActionType.INTERACTION) ∧
    (st.npcs.lookup name = none →
      ∀ a, ActionType.ofValue kind = some a →
        triggerNpcAction st now oracle name ctx kind
          = Except.ok (⟨a, name ++ " is not present.", "System", none⟩, st)) ∧
    (st.npcs.lookup name = none → ActionType.ofValue kind = none →
      triggerNpcAction st now oracle name ctx kind
        = Except.error ("ValidationError: " ++ kind ++ " is not a valid ActionType")) := by
  refine ⟨?_, ?_, ?_⟩
  · intro npc hnpc hkind
    simp only [triggerNpcAction, hnpc]
    exact ⟨_, rfl, by simp [generateAction_action_type, hkind]⟩
  · intro hmiss a ha
    simp [triggerNpcAction, hmiss, ha]
  · intro hmiss ha
    simp [triggerNpcAction, hmiss, ha]

/-- The "Guard" character of the repository's own tests. -/
def guardPersonality : NPCPersonality :=
  { name := "Guard", backstory := "A town guard",
    personality_traits := ["alert", "serious"] }

/-- An agent for the Guard. -/
def guardAgent : NPCAgentState :=
  { personality := guardPersonality, model := .GPT_OSS_OLLAMA,
    memory := { npc_name := "Guard" } }

/-- An orchestrator with the Guard registered. -/
def orchWithGuard : OrchState := { npcs := [("Guard", guardAgent)] }

/-- Witness for C4 (amended) at concrete inputs. -/
theorem trigger_action_kind_fallback_witness :
    (∃ p, triggerNpcAction orchWithGuard 0 (Except.ok (some "salutes"))
        "Guard" "ctx" "somersault" = Except.ok p ∧
      p.1.action_type = ActionType.INTERACTION) ∧
    triggerNpcAction {} 0 (Except.ok (some "salutes")) "Ghost" "ctx" "interaction"
      = Except.ok (⟨.INTERACTION, "Ghost" ++ " is not present.", "System", none⟩,
                   ({} : OrchState)) :=
  ⟨(trigger_action_kind_fallback orchWithGuard 0 (Except.ok (some "salutes"))
      "Guard" "ctx" "somersault").1 guardAgent rfl rfl,
   (trigger_action_kind_fallback {} 0 (Except.ok (some "salutes"))
      "Ghost" "ctx" "interaction").2.1 rfl .INTERACTION rfl⟩

/-- C5 counterexample: when the generation collaborator raises, the
dialogue response's content is the `"..."` placeholder — not the
in-character fallback line — and its metadata has no `"error"` key,
because the generator already swallowed the failure into an empty
string. -/
theorem dialogue_failure_counterexample :
    (generateDialogue guardAgent "hi" initialStoryState (Except.error "boom")).1.content
      = "..." ∧
    "..." ≠ "...I need a moment to collect my thoughts." ∧
    ((generateDialogue guardAgent "hi" initialStoryState
        (Except.error "boom")).1.metadata.getD []).lookup "error" = none := by
  exact ⟨rfl, by decide, rfl⟩

/-- C5 (amended): when the generation collaborator raises or returns no
content, the interaction still completes with a dialogue response and the
failure is never propagated — but the content is the `"..."` placeholder
and no error text is attached as metadata; the in-character fallback line
with `{"error": <message>}` metadata is produced only by the dialogue
routine's own exception handler, which the generator's internal catch
keeps out of reach for generation failures. -/
theorem dialogue_failure_soft (npc : NPCAgentState) (pin : String)
    (story : StoryState) (e : String) :
    (generateDialogue npc pin story (Except.error e)).1.content = "..." ∧
    ((generateDialogue npc pin story (Except.error e)).1.metadata.getD []).lookup "error"
      = none ∧
    (generateDialogue npc pin story (Except.ok none)).1.content = "..." ∧
    (generateDialogue npc pin story (Except.error e)).1.action_type = .DIALOGUE ∧
    (dialogueFailureHandler npc e).content = "...I need a moment to collect my thoughts." ∧
    ((dialogueFailureHandler npc e).metadata.getD []).lookup "error" = some (.jstr e) :=
  ⟨rfl, rfl, rfl, rfl, rfl, rfl⟩
